import Mathlib

/-!
Verification development for the usa_bike_trip repository.

Shallow embedding of the core logic of the repository in Lean 4:
the city-name filter (clean_city_results.py), the cache and the
reverse-geocoding resolvers (efficient_city_finder.py,
comprehensive_city_finder.py, hybrid_city_finder.py), the offline
gazetteer tables (hybrid_city_finder.py, offline_city_finder.py),
the coordinate reducers (smart_sample_coordinates, cluster_coordinates,
smart_sampling) and the route-order deduplicator
(order_cities_by_route.py).

Floating point coordinate values are embedded as exact rationals or as
scaled integers; the haversine distance is kept abstract (a parameter
d : Coord -> Coord -> Rat) wherever the verified property holds for
every distance function.
-/

namespace BikeTrip

/-! ## Generic character and string helpers -/

/-- Lowercase a character list, modelling the effect of the
re.IGNORECASE flag by comparing lowercased text (ASCII). -/
def lowerChars (cs : List Char) : List Char := cs.map Char.toLower

/-- Whitespace class of the Python regex escape \s. -/
def isSpaceChar (c : Char) : Bool :=
  c = ' ' || c = '\t' || c = '\n' || c = '\r' || c = '\x0b' || c = '\x0c'

/-- Does the first list start with the second list. -/
def startsWithChars : List Char → List Char → Bool
  | _, [] => true
  | [], _ :: _ => false
  | h :: t, p :: ps => h = p && startsWithChars t ps

/-- Does pat occur as a contiguous sublist of hay (re.search of a
literal pattern). -/
def charsContains (hay pat : List Char) : Bool :=
  match hay with
  | [] => pat.isEmpty
  | _ :: t => startsWithChars hay pat || charsContains t pat

/-- Case-insensitive substring search, modelling
re.search(literal, name, re.IGNORECASE). -/
def containsCI (s pat : String) : Bool :=
  charsContains (lowerChars s.data) (lowerChars pat.data)

/-- Drop everything up to and including the first occurrence of pat in
hay; none when pat does not occur. -/
def dropAfterFirst (hay pat : List Char) : Option (List Char) :=
  match hay with
  | [] => if pat.isEmpty then some [] else none
  | _ :: t =>
    if startsWithChars hay pat then some (hay.drop pat.length)
    else dropAfterFirst t pat

/-- Matching of a pattern of the shape lit1.*lit2.*lit3 under
re.search: the literal parts occur in order without overlap. -/
def seqMatch (hay : List Char) : List (List Char) → Bool
  | [] => true
  | p :: ps =>
    match dropAfterFirst hay p with
    | some rest => seqMatch rest ps
    | none => false

/-! ## Filter: clean_city_results.is_likely_city -/

/-- One entry of the non_city_patterns list of clean_city_results.py.
Each regex of the source falls into one of these shapes. -/
inductive Pat where
  /-- the pattern matching a string of digits only, anchored both ends -/
  | allDigits : Pat
  /-- the pattern matching digits followed by optional whitespace,
  anchored both ends -/
  | digitsSpaces : Pat
  /-- a literal text searched anywhere in the name, case-insensitive -/
  | lit (text : String) : Pat
  /-- a route-code pattern: the name starts with the code, then one or
  more whitespace characters, then one or more digits -/
  | routeCode (code : String) : Pat
  /-- literal parts separated by dot-star, searched anywhere in order -/
  | seqLits (parts : List String) : Pat
deriving DecidableEq

/-- Match of the anchored digits pattern. -/
def matchAllDigits (cs : List Char) : Bool :=
  !cs.isEmpty && cs.all Char.isDigit

/-- Match of the anchored digits-then-whitespace pattern. -/
def matchDigitsSpaces (cs : List Char) : Bool :=
  let ds := cs.takeWhile Char.isDigit
  !ds.isEmpty && (cs.drop ds.length).all isSpaceChar

/-- Match of a route-code pattern at the start of the name. -/
def matchRouteCode (hay code : List Char) : Bool :=
  startsWithChars hay code &&
    (let rest := hay.drop code.length
     let sp := rest.takeWhile isSpaceChar
     !sp.isEmpty &&
       (match rest.drop sp.length with
        | c :: _ => c.isDigit
        | [] => false))

/-- re.search of one pattern against the name (IGNORECASE). -/
def matchPat (name : String) : Pat → Bool
  | .allDigits => matchAllDigits name.data
  | .digitsSpaces => matchDigitsSpaces name.data
  | .lit text => containsCI name text
  | .routeCode code =>
    matchRouteCode (lowerChars name.data) (lowerChars code.data)
  | .seqLits parts =>
    seqMatch (lowerChars name.data) (parts.map (fun p => lowerChars p.data))

/-- First part of the non_city_patterns list of clean_city_results.py,
in source order. The list is split into four parts only to keep
elaboration fast; nonCityPatterns below concatenates them in order. -/
def nonCityPatternsA : List Pat := [
  .allDigits,
  .digitsSpaces,
  .lit "Highway",
  .lit "Road",
  .lit "Trail",
  .lit "Expressway",
  .lit "Division",
  .routeCode "US",
  .routeCode "SR",
  .routeCode "FM",
  .routeCode "I",
  .routeCode "NM",
  .routeCode "AR",
  .routeCode "MO",
  .lit "Frontage Road",
  .lit "Memorial Highway",
  .lit "Veterans Highway",
  .lit "Jim Thorpe Memorial Highway",
  .lit "Purple Heart Trail",
  .seqLits ["42nd", "Division", "Highway"],
  .seqLits ["Prescott", "Flagstaff Highway"],
  .seqLits ["Bullhead City", "Kingman Highway"],
  .lit "Old Woman Springs Road",
  .lit "Petrified Forest Road",
  .lit "Kelbaker Road",
  .lit "Crookton Road",
  .lit "Rabbit Road",
  .lit "Prairie Grass Trail",
  .lit "Springer Highway",
  .lit "Hualapai Veterans Highway"]

/-- Second part of the non_city_patterns list, in source order. -/
def nonCityPatternsB : List Pat := [
  .lit "Jim Thorpe Memorial Highway",
  .lit "Mannford Expressway",
  .lit "Marques Haynes Highway",
  .lit "Jack Choate Highway",
  .lit "US Highway 64",
  .lit "US 412;AR 21",
  .lit "US 60;US 62;MO 77",
  .lit "US 83",
  .lit "US 87",
  .lit "US 64",
  .lit "SR 59",
  .lit "FM 1573",
  .lit "FM 281",
  .lit "FM 520",
  .lit "NM 68",
  .lit "I 40",
  .lit "Frontage Road",
  .lit "Continental Divide",
  .lit "Fort Defiance Agency",
  .lit "Church Rock",
  .lit "Chief Rancho",
  .lit "Antares",
  .lit "Crozier",
  .lit "Peach Springs",
  .lit "Mesita",
  .lit "Cedar Crest",
  .lit "Ware",
  .lit "Hitt",
  .lit "McKibben",
  .lit "Capps",
  .lit "Coburn",
  .lit "Thompson Corner"]

/-- Third part of the non_city_patterns list, in source order. -/
def nonCityPatternsC : List Pat := [
  .lit "Strawberry Spring",
  .lit "Sand Barrens",
  .lit "Sandia Haven",
  .lit "Rabbit Road",
  .lit "Rally Hill",
  .lit "Eros",
  .lit "Freedom",
  .lit "Paragon",
  .lit "Bud",
  .lit "Glenwood",
  .lit "Kirkersville",
  .lit "Jacksontown",
  .lit "New Concord",
  .lit "Lore City",
  .lit "Quaker City",
  .lit "Lilly Chapel",
  .lit "Tuttle",
  .lit "Huntsville",
  .lit "New Grand Chain",
  .lit "Vienna",
  .lit "New Burnside",
  .lit "Carrier Mills",
  .lit "Eldorado",
  .lit "Norris City",
  .lit "Crossville",
  .lit "Poplar Bluff",
  .lit "Dexter",
  .lit "Grayridge",
  .lit "Sapulpa",
  .lit "Broken Arrow",
  .lit "Mound City"]

/-- Fourth part of the non_city_patterns list: the final run of
duplicated entries of the source list, in source order. -/
def nonCityPatternsD : List Pat := [
  .lit "New Grand Chain",
  .lit "Vienna",
  .lit "New Burnside",
  .lit "Carrier Mills",
  .lit "Eldorado",
  .lit "Norris City",
  .lit "Crossville",
  .lit "Poplar Bluff",
  .lit "Dexter",
  .lit "Grayridge",
  .lit "Sapulpa",
  .lit "Broken Arrow",
  .lit "Mound City"]

/-- The full non_city_patterns list of clean_city_results.py (lines
14-121), in source order, duplicates included. -/
def nonCityPatterns : List Pat :=
  nonCityPatternsA ++ nonCityPatternsB ++ nonCityPatternsC ++ nonCityPatternsD

/-- clean_city_results.is_likely_city: reject on the first matching
pattern, then reject short or purely numeric names, else accept. -/
def is_likely_city (name : String) : Bool :=
  if nonCityPatterns.any (matchPat name) then false
  else if name.data.length < 2 || matchAllDigits name.data then false
  else if matchDigitsSpaces name.data then false
  else true

/-- If any configured pattern matches the name, the filter rejects it:
the pattern loop returns False on the first match. -/
theorem is_likely_city_false_of_match (name : String) (p : Pat)
    (hp : p ∈ nonCityPatterns) (hm : matchPat name p = true) :
    is_likely_city name = false := by
  have h : nonCityPatterns.any (matchPat name) = true :=
    List.any_eq_true.mpr ⟨p, hp, hm⟩
  simp [is_likely_city, h]

/-- C9: the filter classifies the six spec examples as stated:
it rejects the route codes US 40 and I 80, the purely numeric 123 and
the empty string, and accepts Tulsa and Santa Fe. -/
theorem C9_filter_examples :
    is_likely_city "US 40" = false ∧ is_likely_city "I 80" = false ∧
    is_likely_city "123" = false ∧ is_likely_city "" = false ∧
    is_likely_city "Tulsa" = true ∧ is_likely_city "Santa Fe" = true := by
  decide

/-- C10: the rejection rules match by case-insensitive substring
search, not exact membership: any name in which the configured
pattern text Ware, Freedom, Bud or Vienna occurs anywhere as a
substring is rejected, even when the whole name is not itself in the
denylist. -/
theorem C10_substring_rejection (s : String)
    (h : containsCI s "Ware" = true ∨ containsCI s "Freedom" = true ∨
         containsCI s "Bud" = true ∨ containsCI s "Vienna" = true) :
    is_likely_city s = false := by
  rcases h with h | h | h | h
  · exact is_likely_city_false_of_match s (.lit "Ware") (by decide) h
  · exact is_likely_city_false_of_match s (.lit "Freedom") (by decide) h
  · exact is_likely_city_false_of_match s (.lit "Bud") (by decide) h
  · exact is_likely_city_false_of_match s (.lit "Vienna") (by decide) h

/-- Witness for C10: the name Delaware contains the pattern text Ware
as a case-insensitive substring, so the filter rejects it. -/
theorem C10_substring_rejection_witness :
    (containsCI "Delaware" "Ware" = true ∨
     containsCI "Delaware" "Freedom" = true ∨
     containsCI "Delaware" "Bud" = true ∨
     containsCI "Delaware" "Vienna" = true) ∧
    is_likely_city "Delaware" = false :=
  ⟨Or.inl (by decide), C10_substring_rejection "Delaware" (Or.inl (by decide))⟩

/-! ## Dictionaries

Python dict semantics: insert replaces the value at an existing key in
place, otherwise appends at the end; lookup returns the value at the
first (unique) matching key. -/

/-- Python dict update d[k] = v on an association list. -/
def dictInsert {K V : Type} [DecidableEq K] : List (K × V) → K → V → List (K × V)
  | [], k, v => [(k, v)]
  | (k1, v1) :: rest, k, v =>
    if k1 = k then (k, v) :: rest else (k1, v1) :: dictInsert rest k v

/-- Python dict lookup d[k] (with k in d) on an association list. -/
def dictLookup {K V : Type} [DecidableEq K] : List (K × V) → K → Option V
  | [], _ => none
  | (k1, v1) :: rest, k => if k1 = k then some v1 else dictLookup rest k

theorem dictLookup_dictInsert {K V : Type} [DecidableEq K]
    (m : List (K × V)) (k : K) (v : V) :
    dictLookup (dictInsert m k v) k = some v := by
  induction m with
  | nil => simp [dictInsert, dictLookup]
  | cons hd tl ih =>
    obtain ⟨k1, v1⟩ := hd
    by_cases h : k1 = k
    · simp [dictInsert, h, dictLookup]
    · simp [dictInsert, h, dictLookup, ih]

/-! ## Cache: load_cache of EfficientCityFinder and
ComprehensiveCityFinder -/

/-- The in-memory cache: canonical coordinate key to place name, with
none as the negative sentinel (Python None). -/
abbrev Cache := List (String × Option String)

/-- State of the persisted cache file as seen by load_cache: missing,
present but not valid JSON, or present with a parsed mapping. -/
inductive CacheFile where
  | absent : CacheFile
  | corrupt : CacheFile
  | valid (m : Cache) : CacheFile
deriving DecidableEq

/-- load_cache of efficient_city_finder.py lines 25-30 (identical in
comprehensive_city_finder.py lines 25-30): if the file does not exist
return an empty dict; if it exists, json.load it - a corrupt file
raises json.JSONDecodeError, which is not caught, modelled as
Except.error. -/
def load_cache : CacheFile → Except String Cache
  | .absent => .ok []
  | .corrupt => .error "JSONDecodeError"
  | .valid m => .ok m

/-- Counterexample for C3: a present but corrupt cache file makes
load_cache raise a parse error instead of returning an empty mapping. -/
theorem C3_corrupt_counterexample :
    load_cache CacheFile.corrupt = Except.error "JSONDecodeError" ∧
    load_cache CacheFile.corrupt ≠ Except.ok [] := by
  exact ⟨rfl, by simp [load_cache]⟩

/-- C3 (amended): an absent cache file yields an empty mapping without
raising, a readable file yields its parsed mapping, but a present and
corrupt file raises a parse error that propagates to the caller. -/
theorem C3_load_cache_amended :
    load_cache CacheFile.absent = Except.ok [] ∧
    load_cache (CacheFile.valid [("35.100000,-106.620000", some "Albuquerque")]) =
      Except.ok [("35.100000,-106.620000", some "Albuquerque")] ∧
    load_cache CacheFile.corrupt = Except.error "JSONDecodeError" :=
  ⟨rfl, rfl, rfl⟩

/-! ## Canonical cache key -/

/-- A coordinate at the six-decimal precision of the canonical cache
key: latitude and longitude in integer micro-degrees. -/
abbrev Coord6 := Int × Int

/-- Pad a digit string to six digits with leading zeros. -/
def pad6 (s : String) : String :=
  String.mk (List.replicate (6 - s.data.length) '0') ++ s

/-- Render a micro-degree value with exactly six decimals, as the
Python format spec .6f does on these values. -/
def fmt6 (v : Int) : String :=
  (if v < 0 then "-" else "") ++ toString (v.natAbs / 1000000) ++ "." ++
    pad6 (toString (v.natAbs % 1000000))

/-- The canonical cache key string lat,lon at six decimals. -/
def canonicalKey (c : Coord6) : String := fmt6 c.1 ++ "," ++ fmt6 c.2

/-! ## External geocoding collaborator -/

/-- The raw payload of a geopy location: the structured address
breakdown (location.raw at key address, absent when the raw mapping
has no such key) and the free-text display_name. -/
structure RawPlace where
  address : Option (List (String × String))
  display_name : Option String
deriving DecidableEq

/-- Outcome of one call to geolocator.reverse: an exception (timeout,
malformed response, ...), or a location that may be Python None. -/
inductive GeoResponse where
  | failure : GeoResponse
  | success (loc : Option RawPlace) : GeoResponse
deriving DecidableEq

/-- The loop over alternative address components: return the value of
the first listed key present in the address mapping. -/
def firstKeyHit (addr : List (String × String)) : List String → Option String
  | [] => none
  | k :: ks =>
    match dictLookup addr k with
    | some v => some v
    | none => firstKeyHit addr ks

/-- Strip leading and trailing whitespace, as str.strip does. -/
def stripEnds (cs : List Char) : List Char :=
  ((cs.dropWhile (isSpaceChar ·)).reverse.dropWhile (isSpaceChar ·)).reverse

/-- display_name.split(",")[0].strip(): the first comma-delimited
segment, stripped. -/
def firstSegment (s : String) : String :=
  String.mk (stripEnds (s.data.takeWhile (fun c => c ≠ ',')))

/-! ## Resolvers

Each resolver takes the current cache, the coordinate, and the outcome
the external collaborator would produce if called, and returns the new
cache and the result. A cache hit never consults the response. Every
exception inside the try block (the failure outcome, and the KeyError
raised by location.raw at key address) is caught by the bare except
and falls through to the negative-cache write. -/

/-- ComprehensiveCityFinder.get_city_from_coordinate (lines 125-161):
cache hit returns the cached value; otherwise city first, then the
alternative components town, village, hamlet, municipality, suburb,
then the first comma segment of display_name when a location exists;
a None location or an exception is cached as the negative sentinel. -/
def ComprehensiveCityFinder.get_city_from_coordinate
    (cache : Cache) (c : Coord6) (resp : GeoResponse) : Cache × Option String :=
  let coord_key := canonicalKey c
  match dictLookup cache coord_key with
  | some v => (cache, v)
  | none =>
    match resp with
    | .failure => (dictInsert cache coord_key none, none)
    | .success none => (dictInsert cache coord_key none, none)
    | .success (some loc) =>
      match loc.address with
      | none => (dictInsert cache coord_key none, none)
      | some addr =>
        match dictLookup addr "city" with
        | some city => (dictInsert cache coord_key (some city), some city)
        | none =>
          match firstKeyHit addr
              ["town", "village", "hamlet", "municipality", "suburb"] with
          | some city => (dictInsert cache coord_key (some city), some city)
          | none =>
            let city := firstSegment (loc.display_name.getD "")
            (dictInsert cache coord_key (some city), some city)

/-- EfficientCityFinder.get_city_from_coordinate (lines 168-207): as
the comprehensive version but the alternative component loop runs over
town, village, hamlet, municipality only - no suburb. -/
def EfficientCityFinder.get_city_from_coordinate
    (cache : Cache) (c : Coord6) (resp : GeoResponse) : Cache × Option String :=
  let coord_key := canonicalKey c
  match dictLookup cache coord_key with
  | some v => (cache, v)
  | none =>
    match resp with
    | .failure => (dictInsert cache coord_key none, none)
    | .success none => (dictInsert cache coord_key none, none)
    | .success (some loc) =>
      match loc.address with
      | none => (dictInsert cache coord_key none, none)
      | some addr =>
        match dictLookup addr "city" with
        | some city => (dictInsert cache coord_key (some city), some city)
        | none =>
          match firstKeyHit addr ["town", "village", "hamlet", "municipality"] with
          | some city => (dictInsert cache coord_key (some city), some city)
          | none =>
            let city := firstSegment (loc.display_name.getD "")
            (dictInsert cache coord_key (some city), some city)

/-- HybridCityFinder.get_city_from_api (lines 112-129): cache hit
returns the cached value; otherwise only the city component is
consulted; everything else, including exceptions, is cached as the
negative sentinel. -/
def HybridCityFinder.get_city_from_api
    (cache : Cache) (c : Coord6) (resp : GeoResponse) : Cache × Option String :=
  let coord_key := canonicalKey c
  match dictLookup cache coord_key with
  | some v => (cache, v)
  | none =>
    match resp with
    | .failure => (dictInsert cache coord_key none, none)
    | .success none => (dictInsert cache coord_key none, none)
    | .success (some loc) =>
      match loc.address with
      | none => (dictInsert cache coord_key none, none)
      | some addr =>
        match dictLookup addr "city" with
        | some city => (dictInsert cache coord_key (some city), some city)
        | none => (dictInsert cache coord_key none, none)

/-- Modelled from the spec (section 4.3, for comparison with the code
in the refinement theorem of C5): extract a place name from a response
using a priority list of component kinds, fall back to the first comma
segment of the display string when the address mapping is present but
has none of the listed kinds, and yield none otherwise. -/
def specExtractPlace (keys : List String) (resp : GeoResponse) : Option String :=
  match resp with
  | .failure => none
  | .success none => none
  | .success (some loc) =>
    match loc.address with
    | none => none
    | some addr =>
      match firstKeyHit addr keys with
      | some v => some v
      | none => some (firstSegment (loc.display_name.getD ""))

/-- A response whose structured address carries only a suburb
component, with a display string whose first segment differs from the
suburb value. -/
def suburbResp : GeoResponse :=
  .success (some ⟨some [("suburb", "Brooklyn")], some "Crown Heights, Brooklyn, New York"⟩)

/-- A response with no structured address mapping at all, only a
display string. -/
def displayOnlyResp : GeoResponse :=
  .success (some ⟨none, some "Startown, North Carolina"⟩)

/-- Counterexample for C5: the efficient resolver does not consult the
suburb component (it answers with the display-string fallback instead
of the suburb value Brooklyn), and a response carrying only a display
string, no structured address, yields none in the comprehensive
resolver instead of the display fallback Startown. -/
theorem C5_counterexample :
    (EfficientCityFinder.get_city_from_coordinate [] (0, 0) suburbResp).2 =
      some "Crown Heights" ∧
    some "Crown Heights" ≠ (some "Brooklyn" : Option String) ∧
    (ComprehensiveCityFinder.get_city_from_coordinate [] (0, 0) displayOnlyResp).2 =
      none ∧
    (none : Option String) ≠ some "Startown" := by
  refine ⟨by decide, by decide, by decide, by decide⟩

/-- C5 (amended): with the collaborator response in hand on a cache
miss, the comprehensive resolver extracts by the priority order city,
town, village, hamlet, municipality, suburb, while the efficient
resolver omits suburb; for both, the display-string fallback applies
only when the structured address mapping is present but carries none
of the priority components, and a failure, a missing location or a
missing address mapping yields none. -/
theorem C5_extraction_amended (c : Coord6) (resp : GeoResponse) :
    (ComprehensiveCityFinder.get_city_from_coordinate [] c resp).2 =
      specExtractPlace ["city", "town", "village", "hamlet", "municipality", "suburb"] resp ∧
    (EfficientCityFinder.get_city_from_coordinate [] c resp).2 =
      specExtractPlace ["city", "town", "village", "hamlet", "municipality"] resp := by
  cases resp with
  | failure => exact ⟨rfl, rfl⟩
  | success oloc =>
    cases oloc with
    | none => exact ⟨rfl, rfl⟩
    | some loc =>
      obtain ⟨oaddr, disp⟩ := loc
      cases oaddr with
      | none => exact ⟨rfl, rfl⟩
      | some addr =>
        refine ⟨?_, ?_⟩ <;>
          simp only [ComprehensiveCityFinder.get_city_from_coordinate,
            EfficientCityFinder.get_city_from_coordinate, specExtractPlace,
            firstKeyHit] <;>
          repeat' first
            | rfl
            | (split <;> try rfl)
        all_goals simp_all [dictLookup]

/-- C6: on a cache miss, a failure raised by the external collaborator
is caught, recorded as a negative cache entry under the canonical key,
and the resolver returns none; the result is an ordinary value, never
a propagated exception. Stated for both cited resolvers. -/
theorem C6_failure_cached_negative (cache : Cache) (c : Coord6)
    (h : dictLookup cache (canonicalKey c) = none) :
    ComprehensiveCityFinder.get_city_from_coordinate cache c .failure =
      (dictInsert cache (canonicalKey c) none, none) ∧
    EfficientCityFinder.get_city_from_coordinate cache c .failure =
      (dictInsert cache (canonicalKey c) none, none) := by
  constructor <;>
    simp [ComprehensiveCityFinder.get_city_from_coordinate,
      EfficientCityFinder.get_city_from_coordinate, h]

/-- Witness for C6 at the origin coordinate and the empty cache. -/
theorem C6_failure_cached_negative_witness :
    dictLookup ([] : Cache) (canonicalKey (0, 0)) = none ∧
    (ComprehensiveCityFinder.get_city_from_coordinate [] (0, 0) .failure =
       (dictInsert [] (canonicalKey (0, 0)) none, none) ∧
     EfficientCityFinder.get_city_from_coordinate [] (0, 0) .failure =
       (dictInsert [] (canonicalKey (0, 0)) none, none)) :=
  ⟨rfl, C6_failure_cached_negative [] (0, 0) rfl⟩

/-- Every exit path of the comprehensive resolver leaves the returned
result stored in the returned cache under the canonical key. -/
theorem comprehensive_writes_result
    (cache : Cache) (c : Coord6) (resp : GeoResponse) :
    dictLookup (ComprehensiveCityFinder.get_city_from_coordinate cache c resp).1
        (canonicalKey c) =
      some (ComprehensiveCityFinder.get_city_from_coordinate cache c resp).2 := by
  unfold ComprehensiveCityFinder.get_city_from_coordinate
  cases h : dictLookup cache (canonicalKey c) with
  | some v => simp [h]
  | none =>
    cases resp with
    | failure => simp [h, dictLookup_dictInsert]
    | success oloc =>
      cases oloc with
      | none => simp [h, dictLookup_dictInsert]
      | some loc =>
        obtain ⟨oaddr, disp⟩ := loc
        cases oaddr with
        | none => simp [h, dictLookup_dictInsert]
        | some addr =>
          cases hc : dictLookup addr "city" with
          | some city => simp [h, hc, dictLookup_dictInsert]
          | none =>
            cases hk : firstKeyHit addr
                ["town", "village", "hamlet", "municipality", "suburb"] with
            | some city => simp [h, hc, hk, dictLookup_dictInsert]
            | none => simp [h, hc, hk, dictLookup_dictInsert]

/-- Every exit path of the hybrid api lookup leaves the returned
result stored in the returned cache under the canonical key. -/
theorem hybrid_writes_result
    (cache : Cache) (c : Coord6) (resp : GeoResponse) :
    dictLookup (HybridCityFinder.get_city_from_api cache c resp).1 (canonicalKey c) =
      some (HybridCityFinder.get_city_from_api cache c resp).2 := by
  unfold HybridCityFinder.get_city_from_api
  cases h : dictLookup cache (canonicalKey c) with
  | some v => simp [h]
  | none =>
    cases resp with
    | failure => simp [h, dictLookup_dictInsert]
    | success oloc =>
      cases oloc with
      | none => simp [h, dictLookup_dictInsert]
      | some loc =>
        obtain ⟨oaddr, disp⟩ := loc
        cases oaddr with
        | none => simp [h, dictLookup_dictInsert]
        | some addr =>
          cases hc : dictLookup addr "city" with
          | some city => simp [h, hc, dictLookup_dictInsert]
          | none => simp [h, hc, dictLookup_dictInsert]

/-- A cache hit returns the cached value and leaves the cache alone,
whatever the collaborator would have answered. -/
theorem comprehensive_cache_hit (cache : Cache) (c : Coord6)
    (resp : GeoResponse) (v : Option String)
    (h : dictLookup cache (canonicalKey c) = some v) :
    ComprehensiveCityFinder.get_city_from_coordinate cache c resp = (cache, v) := by
  unfold ComprehensiveCityFinder.get_city_from_coordinate
  simp [h]

/-- A cache hit returns the cached value and leaves the cache alone,
whatever the collaborator would have answered. -/
theorem hybrid_cache_hit (cache : Cache) (c : Coord6)
    (resp : GeoResponse) (v : Option String)
    (h : dictLookup cache (canonicalKey c) = some v) :
    HybridCityFinder.get_city_from_api cache c resp = (cache, v) := by
  unfold HybridCityFinder.get_city_from_api
  simp [h]

/-- C7: resolve is idempotent. For both cited resolvers, a second call
on the same coordinate returns exactly the first result with the cache
unchanged, whatever the collaborator would answer the second time
(hence zero external calls), because the first call always stores its
outcome, negative included, under the canonical key before returning. -/
theorem C7_resolve_idempotent (cache : Cache) (c : Coord6) (resp resp2 : GeoResponse) :
    ComprehensiveCityFinder.get_city_from_coordinate
        (ComprehensiveCityFinder.get_city_from_coordinate cache c resp).1 c resp2 =
      ComprehensiveCityFinder.get_city_from_coordinate cache c resp ∧
    dictLookup (ComprehensiveCityFinder.get_city_from_coordinate cache c resp).1
        (canonicalKey c) =
      some (ComprehensiveCityFinder.get_city_from_coordinate cache c resp).2 ∧
    HybridCityFinder.get_city_from_api
        (HybridCityFinder.get_city_from_api cache c resp).1 c resp2 =
      HybridCityFinder.get_city_from_api cache c resp ∧
    dictLookup (HybridCityFinder.get_city_from_api cache c resp).1 (canonicalKey c) =
      some (HybridCityFinder.get_city_from_api cache c resp).2 := by
  have h1 := comprehensive_writes_result cache c resp
  have h2 := hybrid_writes_result cache c resp
  exact ⟨(comprehensive_cache_hit _ c resp2 _ h1).trans Prod.mk.eta, h1,
    (hybrid_cache_hit _ c resp2 _ h2).trans Prod.mk.eta, h2⟩

/-! ## Gazetteer: the major_cities table of HybridCityFinder

Coordinates are written in the source with four decimals; they are
embedded as exact integer pairs scaled by ten thousand, so two source
literals are equal as floats exactly when the scaled pairs are equal. -/

/-- The entries of the major_cities dict literal of
hybrid_city_finder.py lines 25-71, in source order, duplicates at
equal coordinates included as written. -/
def hybridGazetteerEntries : List ((Int × Int) × String) := [
  ((340522, -1182437), "Los Angeles"),
  ((377749, -1224194), "San Francisco"),
  ((341478, -1181445), "Pasadena"),
  ((336846, -1178265), "Irvine"),
  ((337701, -1181937), "Long Beach"),
  ((341808, -1183090), "Burbank"),
  ((340736, -1173137), "Fontana"),
  ((341064, -1175931), "Rancho Cucamonga"),
  ((341064, -1175931), "Pomona"),
  ((341064, -1175931), "Victorville"),
  ((334484, -1120740), "Phoenix"),
  ((322226, -1109747), "Tucson"),
  ((351983, -1116513), "Flagstaff"),
  ((351859, -1116643), "Kingman"),
  ((351859, -1116643), "Bullhead City"),
  ((350844, -1066504), "Albuquerque"),
  ((356869, -1059378), "Santa Fe"),
  ((364072, -1055731), "Taos"),
  ((355281, -1087426), "Gallup"),
  ((361540, -959928), "Tulsa"),
  ((354676, -975164), "Oklahoma City"),
  ((357478, -953697), "Tahlequah"),
  ((352010, -918318), "St. Francisville"),
  ((399612, -829988), "Columbus"),
  ((397589, -841916), "Dayton"),
  ((391031, -845120), "Cincinnati"),
  ((399612, -829988), "Xenia"),
  ((399612, -829988), "Zanesville"),
  ((402732, -768847), "Harrisburg"),
  ((402732, -768847), "Allentown"),
  ((402732, -768847), "Bethlehem"),
  ((402732, -768847), "Easton")]

/-- The major_cities table as the running program holds it: a Python
dict literal is built by inserting the written entries left to right,
a later entry overwriting an earlier one at an equal key. -/
def hybrid_major_cities : List ((Int × Int) × String) :=
  hybridGazetteerEntries.foldl (fun m kv => dictInsert m kv.1 kv.2) []

/-- C2 at the failing input: the source declares three entries at the
coordinate (34.1064, -117.5931) - Rancho Cucamonga, Pomona,
Victorville - but the dict the program builds keeps only Victorville
at that key, Pomona appears nowhere in the table, and only 24 of the
32 declared entries survive. -/
theorem C2_gazetteer_collapses :
    (hybridGazetteerEntries.filter
        (fun kv => kv.1 == ((341064 : Int), (-1175931 : Int)))).map Prod.snd =
      ["Rancho Cucamonga", "Pomona", "Victorville"] ∧
    dictLookup hybrid_major_cities (341064, -1175931) = some "Victorville" ∧
    (hybrid_major_cities.map Prod.snd).contains "Pomona" = false ∧
    hybridGazetteerEntries.length = 32 ∧
    hybrid_major_cities.length = 24 := by
  decide

/-! ## Reducer

The samplers operate on lists of float latitude-longitude pairs, but
their control flow uses the coordinates only through equality tests
and through calculate_distance; they are embedded polymorphically in
the coordinate type, with the haversine distance an abstract
parameter d returning exact rationals. Every theorem below holds for
every d, so in particular for the haversine of the source. -/

/-- The Python slice xs[::k] for k at least one: every k-th element,
starting at index zero. -/
def everyNth {α : Type} (xs : List α) (k : Nat) : List α :=
  (xs.enum.filter (fun p => p.1 % k == 0)).map Prod.snd

/-- HybridCityFinder.smart_sample_coordinates (lines 157-173): take
every n-th coordinate with n = len // max_samples, then prepend the
first and append the last coordinate when missing. -/
def smart_sample_coordinates {α : Type} [DecidableEq α]
    (coordinates : List α) (max_samples : Nat) : List α :=
  if coordinates.length ≤ max_samples then coordinates
  else
    let step := coordinates.length / max_samples
    let sampled := everyNth coordinates (max 1 step)
    let withFirst :=
      match coordinates.head? with
      | none => sampled
      | some c0 => if sampled.contains c0 then sampled else c0 :: sampled
    match coordinates.getLast? with
    | none => withFirst
    | some cl => if withFirst.contains cl then withFirst else withFirst ++ [cl]

/-- Five distinct coordinates, standing for five float pairs. -/
def routeCoordsFive : List (Int × Int) := [(0, 0), (1, 0), (2, 0), (3, 0), (4, 0)]

/-- C1 at the failing input: five coordinates with max_samples three
give step 5 // 3 = 1, so the slice keeps all five coordinates and the
sampler returns a list of length five, exceeding max_samples. -/
theorem C1_sample_exceeds_max :
    routeCoordsFive.length = 5 ∧
    (smart_sample_coordinates routeCoordsFive 3).length = 5 ∧
    ¬ (smart_sample_coordinates routeCoordsFive 3).length ≤ 3 := by
  decide

/-- EfficientCityFinder.cluster_coordinates (lines 80-113). The
index-claiming loop of the source is value-equivalent to: the first
unclaimed coordinate becomes the representative of a new cluster and
claims every later unclaimed coordinate within the radius; claimed
coordinates are not emitted. -/
def clusterFuel {α : Type} (d : α → α → Rat) (r : Rat) : Nat → List α → List α
  | _, [] => []
  | 0, _ :: _ => []
  | n + 1, c :: rest =>
    c :: clusterFuel d r n (rest.filter (fun x => !decide (d c x ≤ r)))

/-- cluster_coordinates proper: the fuel starts at the list length and
filtering only shortens the list, so the fuel never runs out. The fuel
only makes the recursion structural; it does not alter the result. -/
def cluster_coordinates {α : Type} (d : α → α → Rat) (coordinates : List α)
    (cluster_radius_km : Rat) : List α :=
  clusterFuel d cluster_radius_km coordinates.length coordinates

/-- The minimum distance from coord to the already selected points;
the source computes min() over a nonempty sampled list. -/
def minDistToSampled {α : Type} (d : α → α → Rat) (c : α) : List α → Rat
  | [] => 0
  | s :: rest => rest.foldl (fun acc x => min acc (d c x)) (d c s)

/-- The candidate-selection loop of smart_sampling (lines 142-157):
scan the clustered coordinates in index order, skip claimed indices,
and keep the index whose minimum distance to the selected points
strictly exceeds the best seen so far, starting from zero with no
candidate. -/
def pickBest {α : Type} (d : α → α → Rat) (clustered : List α) (used : List Nat)
    (sampled : List α) : Option Nat :=
  (clustered.enum.foldl
    (fun (acc : Rat × Option Nat) p =>
      if used.contains p.1 then acc
      else
        let md := minDistToSampled d p.2 sampled
        if acc.1 < md then (md, some p.1) else acc)
    (0, none)).2

/-- The while loop of smart_sampling (lines 141-163): while fewer than
max_samples points are selected and unclaimed coordinates remain, add
the best candidate; stop when no candidate has positive distance. -/
def greedyLoop {α : Type} [DecidableEq α] [Inhabited α] (d : α → α → Rat)
    (clustered : List α) (max_samples : Nat) (sampled : List α)
    (used : List Nat) : List α :=
  if _h : sampled.length < max_samples ∧ used.length < clustered.length then
    match pickBest d clustered used sampled with
    | some i =>
      greedyLoop d clustered max_samples (sampled ++ [clustered.getD i default])
        (used ++ [i])
    | none => sampled
  else sampled
termination_by max_samples - sampled.length
decreasing_by
  simp only [List.length_append, List.length_cons, List.length_nil]
  omega

/-- EfficientCityFinder.smart_sampling (lines 115-166): return short
inputs unchanged; cluster at radius two; return the clustered list if
it fits; otherwise seed with its first and last coordinate and run the
farthest-point loop. -/
def smart_sampling {α : Type} [DecidableEq α] [Inhabited α] (d : α → α → Rat)
    (coordinates : List α) (max_samples : Nat) : List α :=
  if coordinates.length ≤ max_samples then coordinates
  else
    let clustered := cluster_coordinates d coordinates 2
    if clustered.length ≤ max_samples then clustered
    else
      greedyLoop d clustered max_samples
        [(clustered.head?).getD default, (clustered.getLast?).getD default]
        [0, clustered.length - 1]

/-- The farthest-point loop only ever appends: whatever is seeded
stays in the output. -/
theorem greedyLoop_mem_aux {α : Type} [DecidableEq α] [Inhabited α]
    (d : α → α → Rat) (clustered : List α) (max_samples : Nat) :
    ∀ (n : Nat) (sampled : List α) (used : List Nat),
      max_samples - sampled.length ≤ n →
      ∀ x ∈ sampled, x ∈ greedyLoop d clustered max_samples sampled used := by
  intro n
  induction n with
  | zero =>
    intro sampled used hle x hx
    rw [greedyLoop]
    split
    · next h => exact absurd h.1 (by omega)
    · exact hx
  | succ n ih =>
    intro sampled used hle x hx
    rw [greedyLoop]
    split
    · next h =>
      cases hp : pickBest d clustered used sampled with
      | some i =>
        simp only [hp]
        apply ih
        · simp only [List.length_append, List.length_cons, List.length_nil]
          omega
        · exact List.mem_append_left _ hx
      | none => simp only [hp]; exact hx
    · exact hx

/-- The farthest-point loop keeps its seeds. -/
theorem greedyLoop_mem {α : Type} [DecidableEq α] [Inhabited α]
    (d : α → α → Rat) (clustered : List α) (max_samples : Nat)
    (sampled : List α) (used : List Nat) (x : α) (hx : x ∈ sampled) :
    x ∈ greedyLoop d clustered max_samples sampled used :=
  greedyLoop_mem_aux d clustered max_samples (max_samples - sampled.length)
    sampled used (Nat.le_refl _) x hx

/-- C4: whenever the farthest-point stage of smart_sampling is invoked
(the input is longer than max_samples and so is the clustered list it
samples from), the first and the last coordinate of the sampled list
are present in the output; the first one is also the first coordinate
of the original input, which clustering always keeps. -/
theorem C4_endpoints_present {α : Type} [DecidableEq α] [Inhabited α]
    (d : α → α → Rat) (coordinates : List α) (max_samples : Nat) (c0 cl : α)
    (h1 : ¬ coordinates.length ≤ max_samples)
    (h2 : ¬ (cluster_coordinates d coordinates 2).length ≤ max_samples)
    (hh : (cluster_coordinates d coordinates 2).head? = some c0)
    (hl : (cluster_coordinates d coordinates 2).getLast? = some cl) :
    c0 ∈ smart_sampling d coordinates max_samples ∧
    cl ∈ smart_sampling d coordinates max_samples ∧
    coordinates.head? = some c0 := by
  have hmem : c0 ∈ smart_sampling d coordinates max_samples ∧
      cl ∈ smart_sampling d coordinates max_samples := by
    rw [smart_sampling, if_neg h1]
    simp only [if_neg h2]
    constructor
    · apply greedyLoop_mem
      simp [hh]
    · apply greedyLoop_mem
      simp [hl]
  refine ⟨hmem.1, hmem.2, ?_⟩
  cases hco : coordinates with
  | nil => rw [hco] at hh; simp [cluster_coordinates, clusterFuel] at hh
  | cons c rest =>
    rw [hco] at hh
    simp only [cluster_coordinates, List.length_cons, clusterFuel,
      List.head?_cons, Option.some.injEq] at hh ⊢
    exact hh

/-- Witness distance function for C4: zero on equal points, ten
kilometers otherwise, so that nothing falls inside the radius-two
clusters. -/
def witnessDist : (Int × Int) → (Int × Int) → Rat :=
  fun a b => if a = b then 0 else 10

/-- Four distinct coordinates for the C4 witness. -/
def witnessCoords : List (Int × Int) := [(0, 0), (1, 0), (2, 0), (3, 0)]

/-- Witness for C4 at four pairwise-distant coordinates with
max_samples two. -/
theorem C4_endpoints_present_witness :
    (¬ witnessCoords.length ≤ 2) ∧
    (¬ (cluster_coordinates witnessDist witnessCoords 2).length ≤ 2) ∧
    (cluster_coordinates witnessDist witnessCoords 2).head? = some (0, 0) ∧
    (cluster_coordinates witnessDist witnessCoords 2).getLast? = some (3, 0) ∧
    ((0, 0) ∈ smart_sampling witnessDist witnessCoords 2 ∧
     (3, 0) ∈ smart_sampling witnessDist witnessCoords 2 ∧
     witnessCoords.head? = some (0, 0)) :=
  ⟨by decide, by decide, by decide, by decide,
    C4_endpoints_present witnessDist witnessCoords 2 (0, 0) (3, 0)
      (by decide) (by decide) (by decide) (by decide)⟩

/-! ## Deduplicator and orderer: order_cities_by_route.py

A record carries the resolution outcome for one sampled track point
(none when get_city_for_coordinate finds nothing, and the empty string
is falsy in Python just like None) together with its timestamp.
extract_route_coordinates sorts all records ascending by timestamp
(line 51, a stable sort, embedded as stable insertion sort on the
timestamp key); find_cities_in_route_order then walks them keeping the
first occurrence of each truthy city name (lines 82-88), after the
index sampling of line 77. -/

/-- A resolution outcome and its timestamp. -/
abbrev RouteRecord := Option String × Nat

/-- The sort key comparison of line 51: by timestamp. -/
def timeLE (a b : RouteRecord) : Prop := a.2 ≤ b.2

instance : DecidableRel timeLE := fun a b => Nat.decLe a.2 b.2

instance : IsTotal RouteRecord timeLE := ⟨fun a b => Nat.le_total a.2 b.2⟩

instance : IsTrans RouteRecord timeLE := ⟨fun _ _ _ h1 h2 => Nat.le_trans h1 h2⟩

/-- all_coordinates.sort(key x[2]) of extract_route_coordinates:
stable ascending sort by timestamp. -/
def sortByTime (xs : List RouteRecord) : List RouteRecord :=
  List.insertionSort timeLE xs

/-- The dedup loop of find_cities_in_route_order lines 82-88: walk the
records in order; a truthy city name not yet seen is appended with its
timestamp and marked seen; everything else is skipped. -/
def dedupLoop : List RouteRecord → List String → List (String × Nat)
  | [], _ => []
  | (c?, t) :: rest, seen =>
    match c? with
    | none => dedupLoop rest seen
    | some c =>
      if c = "" then dedupLoop rest seen
      else if c ∈ seen then dedupLoop rest seen
      else (c, t) :: dedupLoop rest (c :: seen)

/-- find_cities_in_route_order (lines 71-94): sample every n-th record
with n = max(1, len // 500), then run the dedup loop with nothing
seen. -/
def find_cities_in_route_order (records : List RouteRecord) : List (String × Nat) :=
  dedupLoop (everyNth records (max 1 (records.length / 500))) []

/-- The per-run pipeline of process_route: the timestamp sort of
extract_route_coordinates followed by find_cities_in_route_order. -/
def route_pipeline (records : List RouteRecord) : List (String × Nat) :=
  find_cities_in_route_order (sortByTime records)

/-- A name appears in the dedup output exactly when it is not yet
seen, is truthy, and occurs in the input records. -/
theorem dedupLoop_mem_names :
    ∀ (records : List RouteRecord) (seen : List String) (n : String),
      (n ∈ (dedupLoop records seen).map Prod.fst) ↔
        (n ∉ seen ∧ n ≠ "" ∧ ∃ t, ((some n, t) : RouteRecord) ∈ records) := by
  intro records
  induction records with
  | nil => intro seen n; simp [dedupLoop]
  | cons r rest ih =>
    intro seen n
    obtain ⟨c?, t⟩ := r
    cases c? with
    | none =>
      simp only [dedupLoop, ih, List.mem_cons]
      constructor
      · rintro ⟨h1, h2, t', ht'⟩
        exact ⟨h1, h2, t', Or.inr ht'⟩
      · rintro ⟨h1, h2, t', ht' | ht'⟩
        · simp at ht'
        · exact ⟨h1, h2, t', ht'⟩
    | some c =>
      by_cases hc : c = ""
      · simp only [dedupLoop, if_pos hc, ih, List.mem_cons]
        constructor
        · rintro ⟨h1, h2, t', ht'⟩
          exact ⟨h1, h2, t', Or.inr ht'⟩
        · rintro ⟨h1, h2, t', ht' | ht'⟩
          · rw [Prod.mk.injEq, Option.some.injEq] at ht'
            exact absurd (ht'.1.trans hc) h2
          · exact ⟨h1, h2, t', ht'⟩
      · by_cases hs : c ∈ seen
        · simp only [dedupLoop, if_neg hc, if_pos hs, ih, List.mem_cons]
          constructor
          · rintro ⟨h1, h2, t', ht'⟩
            exact ⟨h1, h2, t', Or.inr ht'⟩
          · rintro ⟨h1, h2, t', ht' | ht'⟩
            · rw [Prod.mk.injEq, Option.some.injEq] at ht'
              exact absurd (ht'.1 ▸ hs) h1
            · exact ⟨h1, h2, t', ht'⟩
        · simp only [dedupLoop, if_neg hc, if_neg hs, List.map_cons, List.mem_cons, ih,
            List.mem_cons]
          constructor
          · rintro (rfl | ⟨h1, h2, t', ht'⟩)
            · exact ⟨hs, hc, t, Or.inl rfl⟩
            · exact ⟨fun hin => h1 (Or.inr hin), h2, t', Or.inr ht'⟩
          · rintro ⟨h1, h2, t', ht' | ht'⟩
            · rw [Prod.mk.injEq, Option.some.injEq] at ht'
              exact Or.inl ht'.1
            · by_cases hnc : n = c
              · exact Or.inl hnc
              · exact Or.inr ⟨by simp [hnc, h1], h2, t', ht'⟩

/-- The dedup output names are pairwise distinct. -/
theorem dedupLoop_nodup :
    ∀ (records : List RouteRecord) (seen : List String),
      ((dedupLoop records seen).map Prod.fst).Nodup := by
  intro records
  induction records with
  | nil => intro seen; simp [dedupLoop]
  | cons r rest ih =>
    intro seen
    obtain ⟨c?, t⟩ := r
    cases c? with
    | none => simpa only [dedupLoop] using ih seen
    | some c =>
      by_cases hc : c = ""
      · simpa only [dedupLoop, if_pos hc] using ih seen
      · by_cases hs : c ∈ seen
        · simpa only [dedupLoop, if_neg hc, if_pos hs] using ih seen
        · simp only [dedupLoop, if_neg hc, if_neg hs, List.map_cons, List.nodup_cons]
          refine ⟨?_, ih _⟩
          intro hmem
          rw [dedupLoop_mem_names] at hmem
          exact hmem.1 (List.mem_cons_self c seen)

/-- Every dedup output record is one of the input records. -/
theorem dedupLoop_src :
    ∀ (records : List RouteRecord) (seen : List String) (q : String × Nat),
      q ∈ dedupLoop records seen → ((some q.1, q.2) : RouteRecord) ∈ records := by
  intro records
  induction records with
  | nil => intro seen q hq; simp [dedupLoop] at hq
  | cons r rest ih =>
    intro seen q hq
    obtain ⟨c?, t⟩ := r
    cases c? with
    | none => exact List.mem_cons_of_mem _ (ih seen q hq)
    | some c =>
      by_cases hc : c = ""
      · rw [dedupLoop, if_pos hc] at hq
        exact List.mem_cons_of_mem _ (ih seen q hq)
      · by_cases hs : c ∈ seen
        · rw [dedupLoop, if_neg hc, if_pos hs] at hq
          exact List.mem_cons_of_mem _ (ih seen q hq)
        · rw [dedupLoop, if_neg hc, if_neg hs] at hq
          rcases List.mem_cons.mp hq with rfl | hq'
          · exact List.mem_cons_self _ _
          · exact List.mem_cons_of_mem _ (ih _ q hq')

/-- On records sorted ascending by timestamp, the timestamp the dedup
loop keeps for a name is a lower bound on every occurrence of that
name. -/
theorem dedupLoop_min :
    ∀ (records : List RouteRecord) (seen : List String),
      List.Pairwise timeLE records →
      ∀ q ∈ dedupLoop records seen, ∀ p ∈ records, p.1 = some q.1 → q.2 ≤ p.2 := by
  intro records
  induction records with
  | nil => intro seen _ q hq; simp [dedupLoop] at hq
  | cons r rest ih =>
    intro seen hpw q hq p hp hpq
    rw [List.pairwise_cons] at hpw
    obtain ⟨c?, t⟩ := r
    have hname : q.1 ∈ (dedupLoop ((c?, t) :: rest) seen).map Prod.fst :=
      List.mem_map.mpr ⟨q, hq, rfl⟩
    rw [dedupLoop_mem_names] at hname
    cases c? with
    | none =>
      rw [dedupLoop] at hq
      rcases List.mem_cons.mp hp with rfl | hp'
      · simp at hpq
      · exact ih seen hpw.2 q hq p hp' hpq
    | some c =>
      by_cases hc : c = ""
      · rw [dedupLoop, if_pos hc] at hq
        rcases List.mem_cons.mp hp with rfl | hp'
        · rw [Option.some.injEq] at hpq
          exact absurd (hpq.symm.trans hc) hname.2.1
        · exact ih seen hpw.2 q hq p hp' hpq
      · by_cases hs : c ∈ seen
        · rw [dedupLoop, if_neg hc, if_pos hs] at hq
          rcases List.mem_cons.mp hp with rfl | hp'
          · rw [Option.some.injEq] at hpq
            exact absurd (hpq ▸ hs) hname.1
          · exact ih seen hpw.2 q hq p hp' hpq
        · rw [dedupLoop, if_neg hc, if_neg hs] at hq
          rcases List.mem_cons.mp hq with rfl | hq'
          · rcases List.mem_cons.mp hp with rfl | hp'
            · exact Nat.le_refl _
            · exact hpw.1 p hp'
          · rcases List.mem_cons.mp hp with rfl | hp'
            · have : q.1 ∉ c :: seen := by
                have hname' : q.1 ∈ (dedupLoop rest (c :: seen)).map Prod.fst :=
                  List.mem_map.mpr ⟨q, hq', rfl⟩
                exact ((dedupLoop_mem_names rest (c :: seen) q.1).mp hname').1
              rw [Option.some.injEq] at hpq
              exact absurd (hpq ▸ List.mem_cons_self c seen) this
            · exact ih (c :: seen) hpw.2 q hq' p hp' hpq

/-- On records sorted ascending by timestamp, the dedup output is
ascending in the recorded timestamps. -/
theorem dedupLoop_pairwise :
    ∀ (records : List RouteRecord) (seen : List String),
      List.Pairwise timeLE records →
      List.Pairwise (fun (a b : String × Nat) => a.2 ≤ b.2) (dedupLoop records seen) := by
  intro records
  induction records with
  | nil => intro seen _; simp [dedupLoop]
  | cons r rest ih =>
    intro seen hpw
    rw [List.pairwise_cons] at hpw
    obtain ⟨c?, t⟩ := r
    cases c? with
    | none => rw [dedupLoop]; exact ih seen hpw.2
    | some c =>
      by_cases hc : c = ""
      · rw [dedupLoop, if_pos hc]; exact ih seen hpw.2
      · by_cases hs : c ∈ seen
        · rw [dedupLoop, if_neg hc, if_pos hs]; exact ih seen hpw.2
        · rw [dedupLoop, if_neg hc, if_neg hs, List.pairwise_cons]
          refine ⟨?_, ih (c :: seen) hpw.2⟩
          intro q hq
          exact hpw.1 _ (dedupLoop_src rest (c :: seen) q hq)

/-- The slice with step one keeps every record. -/
theorem everyNth_one {α : Type} (xs : List α) : everyNth xs 1 = xs := by
  simp only [everyNth, Nat.mod_one, beq_self_eq_true, List.filter_true]
  exact List.enum_map_snd xs

/-- The timestamp sort is a permutation of its input. -/
theorem sortByTime_perm (xs : List RouteRecord) : (sortByTime xs).Perm xs :=
  List.perm_insertionSort timeLE xs

/-- The timestamp sort is ascending in the timestamps. -/
theorem sortByTime_sorted (xs : List RouteRecord) :
    List.Pairwise timeLE (sortByTime xs) :=
  List.sorted_insertionSort timeLE xs

/-- Below one thousand records the sampling step of
find_cities_in_route_order is one, so the pipeline is exactly the
timestamp sort followed by the dedup loop. -/
theorem route_pipeline_small (records : List RouteRecord)
    (h : records.length < 1000) :
    route_pipeline records = dedupLoop (sortByTime records) [] := by
  unfold route_pipeline find_cities_in_route_order
  have hlen : (sortByTime records).length = records.length :=
    List.length_insertionSort timeLE records
  have hmax : max 1 ((sortByTime records).length / 500) = 1 := by
    rw [hlen]; omega
  rw [hmax, everyNth_one]

/-- Membership transfer between accepted resolutions and their
records. -/
theorem mem_map_pair (xs : List (String × Nat)) (n : String) (t : Nat) :
    (((some n, t) : RouteRecord) ∈ xs.map (fun p => ((some p.1, p.2) : RouteRecord)))
      ↔ (n, t) ∈ xs := by
  constructor
  · intro hm
    obtain ⟨p, hp, heq⟩ := List.mem_map.mp hm
    rw [Prod.mk.injEq, Option.some.injEq] at heq
    obtain ⟨h1, h2⟩ := heq
    rwa [← h1, ← h2, Prod.mk.eta]
  · intro hm
    exact List.mem_map.mpr ⟨(n, t), hm, rfl⟩

/-- The accepted resolutions of the spec example. -/
def tulsaResolutions : List (String × Nat) :=
  [("Tulsa", 3), ("Tulsa", 1), ("Santa Fe", 2), ("Tulsa", 5)]

/-- C8: over any stream of accepted resolutions (truthy names with
timestamps), the pipeline - the timestamp sort of
extract_route_coordinates followed by the first-occurrence dedup loop
of find_cities_in_route_order - emits each distinct name exactly once;
each emitted record is one of the input occurrences of its name and
its timestamp is the minimum over all of them; the output is ascending
in the recorded timestamps; on fewer than one thousand records the
full route_pipeline (whose index-sampling step is then one) computes
exactly this composition; and the spec example evaluates to Tulsa at
one followed by Santa Fe at two. -/
theorem C8_dedup_chronological (xs : List (String × Nat))
    (hne : ∀ p ∈ xs, p.1 ≠ "") :
    (((dedupLoop (sortByTime (xs.map (fun p => ((some p.1, p.2) : RouteRecord)))) []).map
        Prod.fst).Nodup) ∧
    (∀ n, n ∈ (dedupLoop (sortByTime (xs.map (fun p => ((some p.1, p.2) : RouteRecord)))) []).map
        Prod.fst ↔ n ∈ xs.map Prod.fst) ∧
    (∀ q ∈ dedupLoop (sortByTime (xs.map (fun p => ((some p.1, p.2) : RouteRecord)))) [],
      q ∈ xs ∧ ∀ p ∈ xs, p.1 = q.1 → q.2 ≤ p.2) ∧
    List.Pairwise (fun (a b : String × Nat) => a.2 ≤ b.2)
      (dedupLoop (sortByTime (xs.map (fun p => ((some p.1, p.2) : RouteRecord)))) []) ∧
    (xs.length < 1000 →
      route_pipeline (xs.map (fun p => ((some p.1, p.2) : RouteRecord))) =
        dedupLoop (sortByTime (xs.map (fun p => ((some p.1, p.2) : RouteRecord)))) []) ∧
    route_pipeline (tulsaResolutions.map (fun p => ((some p.1, p.2) : RouteRecord))) =
      [("Tulsa", 1), ("Santa Fe", 2)] := by
  refine ⟨dedupLoop_nodup _ [], ?_, ?_, dedupLoop_pairwise _ [] (sortByTime_sorted _), ?_, ?_⟩
  · intro n
    rw [dedupLoop_mem_names]
    constructor
    · rintro ⟨-, -, t, ht⟩
      have hy := (sortByTime_perm _).mem_iff.mp ht
      have hx := (mem_map_pair xs n t).mp hy
      exact List.mem_map.mpr ⟨(n, t), hx, rfl⟩
    · intro hn
      obtain ⟨p, hp, hpn⟩ := List.mem_map.mp hn
      refine ⟨List.not_mem_nil n, hpn ▸ hne p hp, p.2, ?_⟩
      apply (sortByTime_perm _).mem_iff.mpr
      apply (mem_map_pair xs n p.2).mpr
      rw [← hpn, Prod.mk.eta]
      exact hp
  · intro q hq
    constructor
    · have hs := dedupLoop_src _ [] q hq
      have hy := (sortByTime_perm _).mem_iff.mp hs
      have hx := (mem_map_pair xs q.1 q.2).mp hy
      rwa [Prod.mk.eta] at hx
    · intro p hp hpq
      have hmin := dedupLoop_min _ [] (sortByTime_sorted _) q hq
      have hy : ((some p.1, p.2) : RouteRecord) ∈
          sortByTime (xs.map (fun p => ((some p.1, p.2) : RouteRecord))) := by
        apply (sortByTime_perm _).mem_iff.mpr
        exact List.mem_map.mpr ⟨p, hp, rfl⟩
      have := hmin _ hy (by simp [hpq])
      exact this
  · intro hlen
    apply route_pipeline_small
    simpa using hlen
  · decide

/-- Witness for C8 at the spec example. -/
theorem C8_dedup_chronological_witness :
    (∀ p ∈ tulsaResolutions, p.1 ≠ "") ∧
    ((((dedupLoop (sortByTime (tulsaResolutions.map
        (fun p => ((some p.1, p.2) : RouteRecord)))) []).map Prod.fst).Nodup) ∧
    (∀ n, n ∈ (dedupLoop (sortByTime (tulsaResolutions.map
        (fun p => ((some p.1, p.2) : RouteRecord)))) []).map
        Prod.fst ↔ n ∈ tulsaResolutions.map Prod.fst) ∧
    (∀ q ∈ dedupLoop (sortByTime (tulsaResolutions.map
        (fun p => ((some p.1, p.2) : RouteRecord)))) [],
      q ∈ tulsaResolutions ∧ ∀ p ∈ tulsaResolutions, p.1 = q.1 → q.2 ≤ p.2) ∧
    List.Pairwise (fun (a b : String × Nat) => a.2 ≤ b.2)
      (dedupLoop (sortByTime (tulsaResolutions.map
        (fun p => ((some p.1, p.2) : RouteRecord)))) []) ∧
    (tulsaResolutions.length < 1000 →
      route_pipeline (tulsaResolutions.map (fun p => ((some p.1, p.2) : RouteRecord))) =
        dedupLoop (sortByTime (tulsaResolutions.map
          (fun p => ((some p.1, p.2) : RouteRecord)))) []) ∧
    route_pipeline (tulsaResolutions.map (fun p => ((some p.1, p.2) : RouteRecord))) =
      [("Tulsa", 1), ("Santa Fe", 2)]) :=
  ⟨by decide, C8_dedup_chronological tulsaResolutions (by decide)⟩

end BikeTrip
